import Mathlib

/-!
Shallow embedding of `ptgnn/baseneuralmodel/distributedtrainer.py`
(`DistributedModelTrainer`): the training pass, the validation pass with its
collective loss reduction, the target-metric improvement policy, the
per-worker epoch loop with early stopping and rank-0 checkpointing, and the
top-level spawn entry points.
-/

namespace Ptgnn

/-- Model of a Python float value as it matters to the trainer: a finite
rational, positive or negative infinity, or NaN. -/
inductive PyFloat where
  | fin (q : ℚ)
  | inf
  | negInf
  | nan
deriving DecidableEq, Repr

/-- Embedding of `torch.isnan`: true exactly on NaN (an infinite value is not
NaN). Used by the training step check at line 72 of the source. -/
def PyFloat.isnan : PyFloat → Bool
  | .nan => true
  | _ => false

/-- A value is finite when it is neither infinite nor NaN. -/
def PyFloat.isfinite : PyFloat → Bool
  | .fin _ => true
  | _ => false

/-- IEEE-style strict less-than on `PyFloat`: any comparison involving NaN is
false, `-inf < x` for finite or `+inf` `x`, `x < +inf` for finite `x`, and
finite values compare as rationals. -/
def PyFloat.lt : PyFloat → PyFloat → Bool
  | .fin a, .fin b => decide (a < b)
  | .fin _, .inf => true
  | .negInf, .fin _ => true
  | .negInf, .inf => true
  | _, _ => false

/-- IEEE-style strict greater-than, by swapping the arguments of `lt`. -/
def PyFloat.gt (a b : PyFloat) : Bool := PyFloat.lt b a

/-- Embedding of the improvement decision of `_run_validation` (source lines
172-175): `target_metric > best` when `_target_metric_higher_is_better`, else
`target_metric < best`. -/
def target_metric_improved (higher_is_better : Bool)
    (target_metric best_target_metric : PyFloat) : Bool :=
  if higher_is_better then PyFloat.gt target_metric best_target_metric
  else PyFloat.lt target_metric best_target_metric

/-- Embedding of the per-minibatch control flow of `_run_training` (source
lines 58-90) as a function of the sequence of minibatch losses: each step
first checks `torch.isnan(mb_loss)` and raises `Exception("Loss has a NaN
value.")` on NaN, before the `scaler.step(optimizer)` parameter update for
that step; otherwise the update is applied and the loop continues. Returns
the number of optimizer updates applied and the raised error, if any. -/
def run_training_pass : List PyFloat → Nat × Option String
  | [] => (0, none)
  | mb_loss :: rest =>
    if mb_loss.isnan then
      (0, some "Loss has a NaN value.")
    else
      let r := run_training_pass rest
      (r.1 + 1, r.2)

/-- Local mean validation loss of one rank (source line 148):
`sum_epoch_loss / num_minibatches`, one entry of the input list per
minibatch. -/
def local_mean_loss (mb_losses : List ℚ) : ℚ :=
  mb_losses.sum / (mb_losses.length : ℚ)

/-- Model of `dist.all_reduce` with the default SUM operation: every rank,
whatever its id, receives the sum of all ranks' contributions. -/
def all_reduce_sum (contributions : List ℚ) (rank : Nat) : ℚ :=
  contributions.sum

/-- The globally reduced validation loss as observed by rank `rank` (source
lines 147-150): the rank-local mean losses are computed first, all-reduced
with SUM, and only then divided by `dist.get_world_size()` (the number of
ranks, i.e. the length of the outer list). -/
def reduced_validation_loss (per_rank_mb_losses : List (List ℚ)) (rank : Nat) : ℚ :=
  all_reduce_sum (List.map local_mean_loss per_rank_mb_losses) rank
    / (per_rank_mb_losses.length : ℚ)

/-- Outcome of the `try` block of `_run_validation` (source lines 128-150):
either it completes, binding the locals `elapsed_time` and `validation_loss`,
or an exception is raised inside the minibatch loop, before `elapsed_time` is
assigned; the flag records whether that exception is a `RuntimeError`. -/
inductive ValTryOutcome where
  | completes (elapsed_time validation_loss : ℚ)
  | raisesInLoop (isRuntimeError : Bool) (msg : String)
deriving DecidableEq, Repr

/-- Result of the validation pass control flow: a returned loss value or a
propagated exception. -/
inductive ValFlowResult where
  | returns (validation_loss : ℚ)
  | raises (msg : String)
deriving DecidableEq, Repr

/-- Embedding of the exception control flow of `_run_validation` (source
lines 128-159). The handler `except RuntimeError as re` (line 151) only logs:
it does not re-raise, so execution continues to the logging call at lines
154-158 which reads the local `elapsed_time`; when the exception was raised
inside the minibatch loop that local was never assigned, and Python raises
`UnboundLocalError` there. A non-`RuntimeError` exception is not caught and
propagates as itself. -/
def run_validation_flow (o : ValTryOutcome) : ValFlowResult :=
  match o with
  | .completes _ validation_loss => .returns validation_loss
  | .raisesInLoop true _ =>
      .raises "UnboundLocalError: local variable elapsed_time referenced before assignment"
  | .raisesInLoop false msg => .raises msg

/-- Embedding of the initial `best_target_metric` selection of
`_parallel_training_process` (source lines 312-315): `-inf` when
`_target_metric_higher_is_better` and `_target_metric is not None`, else
`+inf`. -/
def initial_best_target_metric (higher_is_better : Bool)
    (target_metric_name : Option String) : PyFloat :=
  if higher_is_better && target_metric_name.isSome then PyFloat.negInf
  else PyFloat.inf

/-- What one iteration of the epoch loop observes: either `_run_training`
raised (the exception is re-raised at source line 345), or the epoch's
validation resolved a target metric value. -/
inductive EpochOutcome where
  | trainError (msg : String)
  | metric (m : PyFloat)

/-- Observable trace of one worker process: the epochs whose bodies ran, the
epochs judged improved, the epochs at which this rank called
`_save_checkpoint`, whether `dist.destroy_process_group()` (source line 373)
was reached, and the error that propagated out, if any. -/
structure RunTrace where
  epochsRun : List Nat
  improvedEpochs : List Nat
  saves : List Nat
  destroyed : Bool
  error : Option String
deriving DecidableEq, Repr

/-- Embedding of the epoch loop of `_parallel_training_process` (source lines
329-373), driven by the per-epoch outcomes. Arguments after `outcomes`: the
remaining epoch budget (`range(self._max_num_epochs)` not yet consumed), the
current epoch index, `best_target_metric`, and `num_epochs_not_improved`.
A training exception is re-raised (line 345) and so skips the
`destroy_process_group` call at line 373, which is not in a `finally` block.
On improvement the counter resets, rank 0 saves a checkpoint (lines 361-363),
and the best value updates (line 364); on non-improvement the counter is
incremented and the loop breaks when it exceeds `patience` (lines 366-371),
after which line 373 destroys the process group. -/
def epoch_loop (higher_is_better : Bool) (patience rank : Nat)
    (outcomes : Nat → EpochOutcome) :
    Nat → Nat → PyFloat → Nat → RunTrace
  | 0, _, _, _ => ⟨[], [], [], true, none⟩
  | fuel + 1, epoch, best_target_metric, num_epochs_not_improved =>
    match outcomes epoch with
    | .trainError msg => ⟨[epoch], [], [], false, some msg⟩
    | .metric target_metric =>
      if target_metric_improved higher_is_better target_metric best_target_metric then
        let rest := epoch_loop higher_is_better patience rank outcomes
          fuel (epoch + 1) target_metric 0
        ⟨epoch :: rest.epochsRun, epoch :: rest.improvedEpochs,
          (if rank = 0 then [epoch] else []) ++ rest.saves,
          rest.destroyed, rest.error⟩
      else if num_epochs_not_improved + 1 > patience then
        ⟨[epoch], [], [], true, none⟩
      else
        let rest := epoch_loop higher_is_better patience rank outcomes
          fuel (epoch + 1) best_target_metric (num_epochs_not_improved + 1)
        ⟨epoch :: rest.epochsRun, rest.improvedEpochs, rest.saves,
          rest.destroyed, rest.error⟩

/-- Embedding of the decision structure of `_parallel_training_process`
(source lines 259-373) after process-group and optimizer setup. The initial
best is chosen at lines 312-315; when `validate_on_start` is set, one
validation pass yields `start_metric` and the worker executes
`assert improved` (line 325) — a failed assert propagates as an
`AssertionError`, skipping the loop and the `destroy_process_group` call;
on success the best becomes `start_metric` (line 327, no checkpoint is
saved). The epoch loop then runs with the full `_max_num_epochs` budget. -/
def parallel_training_process (higher_is_better : Bool)
    (target_metric_name : Option String) (max_num_epochs patience : Nat)
    (validate_on_start : Bool) (rank : Nat) (start_metric : PyFloat)
    (outcomes : Nat → EpochOutcome) : RunTrace :=
  let best0 := initial_best_target_metric higher_is_better target_metric_name
  if validate_on_start then
    if target_metric_improved higher_is_better start_metric best0 then
      epoch_loop higher_is_better patience rank outcomes max_num_epochs 0
        start_metric 0
    else
      ⟨[], [], [], false, some "AssertionError"⟩
  else
    epoch_loop higher_is_better patience rank outcomes max_num_epochs 0 best0 0

/-- The hardcoded world size of `distributed_train` (source line 242:
`world_size = 2`). -/
def distributed_train_world_size : Nat := 2

/-- The caller-visible configuration surface of `distributed_train` (source
lines 197-207). -/
structure DistributedTrainArgs where
  validate_on_start : Bool
  patience : Nat
  init_metadata : Bool
  parallelize : Bool
  shuffle_training_data : Bool
deriving DecidableEq, Repr

/-- The `nprocs` value `distributed_train` passes to `mp.spawn` (source lines
242-254): the hardcoded `world_size`, independent of every argument. -/
def distributed_train_nprocs (args : DistributedTrainArgs) : Nat :=
  distributed_train_world_size

/-- The caller-visible configuration surface of the inherited `train` entry
point (source lines 179-194). -/
structure TrainArgs where
  show_progress_bar : Bool
  validate_on_start : Bool
  patience : Nat
  init_metadata : Bool
  parallelize : Bool
  use_multiprocessing : Bool
  store_tensorized_data_in_memory : Bool
  shuffle_training_data : Bool
deriving DecidableEq, Repr

/-- Embedding of `DistributedModelTrainer.train` (source lines 179-195): its
body is a single `raise Exception("Use distributed_train instead.")`,
performing no other work. -/
def train (args : TrainArgs) : Except String Unit :=
  Except.error "Use `distributed_train` instead."

/-! Theorems. -/

/-- Helper: no value is a strict improvement over itself, in either
direction, including the infinities and NaN. -/
theorem target_metric_improved_self (h : Bool) (m : PyFloat) :
    target_metric_improved h m m = false := by
  cases h <;> cases m <;> simp [target_metric_improved, PyFloat.gt, PyFloat.lt]

/-- Claim C3 (confirmed): for all numeric values `new` and `best`, the
improvement decision is exactly the strict comparison `new > best` when the
configured direction is higher-is-better and `new < best` when it is
lower-is-better, with no tolerance band. -/
theorem target_metric_improved_is_strict_comparison (new best : ℚ) :
    target_metric_improved true (.fin new) (.fin best) = decide (new > best) ∧
    target_metric_improved false (.fin new) (.fin best) = decide (new < best) := by
  constructor <;> simp [target_metric_improved, PyFloat.gt, PyFloat.lt]

/-- Claim C2 (confirmed): the validation reduction computes each rank's local
mean loss first, sums those means across ranks with an all-reduce, and
divides by the world size only after the cross-rank sum; every rank observes
the identical value, and for world size 2 with per-rank minibatch losses
`[1, 2, 3]` and `[4, 5, 6]` the local means are `2` and `5` and the global
reduced loss is `7/2 = 3.5`. -/
theorem reduced_validation_loss_correct :
    (∀ (per_rank : List (List ℚ)) (r1 r2 : Nat),
        reduced_validation_loss per_rank r1 = reduced_validation_loss per_rank r2) ∧
    (∀ (per_rank : List (List ℚ)) (r : Nat),
        reduced_validation_loss per_rank r
          = (List.map local_mean_loss per_rank).sum / (per_rank.length : ℚ)) ∧
    local_mean_loss [1, 2, 3] = 2 ∧
    local_mean_loss [4, 5, 6] = 5 ∧
    reduced_validation_loss [[1, 2, 3], [4, 5, 6]] 0 = 7 / 2 := by
  refine ⟨fun _ _ _ => rfl, fun _ _ => rfl, ?_, ?_, ?_⟩ <;>
    norm_num [local_mean_loss, reduced_validation_loss, all_reduce_sum]

/-- Claim C4 counterexample: a minibatch whose loss is positive infinity is
not a finite number, yet the training pass raises no error and applies the
optimizer update for that step — refuting that every non-finite loss fails
fast before the parameter update. -/
theorem run_training_pass_inf_not_caught :
    PyFloat.isfinite .inf = false ∧ run_training_pass [.inf] = (1, none) := by
  constructor <;> rfl

/-- Claim C4 (corrected): the training pass fails fast exactly on NaN losses:
if some minibatch loss is NaN, the pass raises "Loss has a NaN value." and
the optimizer updates applied are precisely those of the steps before the
first NaN — the NaN step itself performs no update and the epoch aborts.
Infinite losses are not detected. -/
theorem run_training_pass_nan_fail_fast (losses : List PyFloat)
    (h : PyFloat.nan ∈ losses) :
    run_training_pass losses
      = ((losses.takeWhile (fun l => !l.isnan)).length,
          some "Loss has a NaN value.") := by
  induction losses with
  | nil => cases h
  | cons l rest ih =>
    by_cases hn : l.isnan
    · have hl : l = PyFloat.nan := by cases l <;> simp_all [PyFloat.isnan]
      subst hl
      simp [run_training_pass, List.takeWhile, PyFloat.isnan]
    · have hl : l ≠ PyFloat.nan := by
        intro he; subst he; exact hn rfl
      have hmem : PyFloat.nan ∈ rest := by
        rcases List.mem_cons.mp h with h1 | h1
        · exact absurd h1.symm hl
        · exact h1
      simp [run_training_pass, List.takeWhile, hn, ih hmem]

/-- Claim C4 witness: the concrete loss sequence `[fin 1, NaN]` contains a
NaN, and the pass applies exactly the one update of the step preceding the
NaN before raising. -/
theorem run_training_pass_nan_fail_fast_witness :
    PyFloat.nan ∈ [PyFloat.fin 1, PyFloat.nan] ∧
    run_training_pass [PyFloat.fin 1, PyFloat.nan]
      = (1, some "Loss has a NaN value.") := by
  refine ⟨by decide, ?_⟩
  rw [run_training_pass_nan_fail_fast [PyFloat.fin 1, PyFloat.nan] (by decide)]
  rfl

/-- Claim C6 (code bug): when a `RuntimeError` is raised inside the
validation minibatch loop, the handler logs it but does not re-raise;
execution continues to the completion logging, which reads the never-assigned
local `elapsed_time`, so the pass propagates an `UnboundLocalError` instead
of the original error — the worker does continue past the failed pass with
its local state unset. -/
theorem run_validation_flow_swallows_runtime_error :
    run_validation_flow (.raisesInLoop true "CUDA error: device-side assert")
      = .raises "UnboundLocalError: local variable elapsed_time referenced before assignment"
    ∧ run_validation_flow (.raisesInLoop true "CUDA error: device-side assert")
        ≠ .raises "CUDA error: device-side assert" := by
  constructor <;> decide

/-- Claim C5 (code bug): in the configuration higher-is-better with no named
target metric, the initial best is `+inf` (the `and self._target_metric is
not None` conjunct at line 312 selects the `else` branch), so the first
validation measurement — here the finite loss `0` — is not judged an
improvement and the worker's `assert improved` fails: the assertion's failure
branch is reachable. -/
theorem validate_on_start_assert_reachable_failure :
    initial_best_target_metric true none = PyFloat.inf ∧
    target_metric_improved true (PyFloat.fin 0)
        (initial_best_target_metric true none) = false ∧
    (parallel_training_process true none 10 5 true 0 (PyFloat.fin 0)
        (fun _ => .metric (.fin 0))).error = some "AssertionError" := by
  refine ⟨rfl, rfl, ?_⟩
  simp [parallel_training_process, initial_best_target_metric,
    target_metric_improved, PyFloat.gt, PyFloat.lt]

/-- Claim C1 counterexample: a concrete run refuting the claim's scenario.
Epoch indices are 0-based here; the source displays `epoch + 1`, so display
epochs 1-3 improve (losses 10, 9, 8 under lower-is-better), the best is at
display epoch 3, and display epochs 4 and 5 do not improve. With patience 2
the loop nonetheless runs display epoch 6 (index 5): after epoch 5 the
non-improvement counter is 2, which does not exceed the patience of 2. -/
theorem early_stopping_scenario_counterexample :
    (parallel_training_process false none 10 2 false 0 (PyFloat.fin 0)
        (fun e => .metric (.fin ([10, 9, 8, 9, 9, 9, 9, 9, 9, 9].getD e 9)))).epochsRun
      = [0, 1, 2, 3, 4, 5] := by decide

/-- Claim C1 (amended): once improvements stop (every subsequent validation
yields a value that is not a strict improvement, modelled by the constant
value `best`), a loop state whose counter reads `notImp` runs exactly
`min fuel (patience + 1 - notImp)` further epochs: with a fresh counter it
stops after exactly `patience + 1` consecutive non-improving passes when the
epoch budget allows, and no earlier. -/
theorem epoch_loop_stops_after_patience_exceeded (higher_is_better : Bool)
    (patience rank : Nat) (outcomes : Nat → EpochOutcome) (best : PyFloat)
    (hout : ∀ e, outcomes e = .metric best) :
    ∀ fuel epoch notImp, notImp ≤ patience →
      (epoch_loop higher_is_better patience rank outcomes fuel epoch
          best notImp).epochsRun.length
        = min fuel (patience + 1 - notImp) := by
  intro fuel
  induction fuel with
  | zero => intro epoch notImp h; simp [epoch_loop]
  | succ n ih =>
    intro epoch notImp h
    have hni := target_metric_improved_self higher_is_better best
    by_cases hcnt : notImp + 1 > patience
    · simp [epoch_loop, hout epoch, hni, hcnt]
      omega
    · simp [epoch_loop, hout epoch, hni, hcnt,
        ih (epoch + 1) (notImp + 1) (by omega)]
      omega

/-- Claim C1 witness: with patience 2, a fresh counter, a budget of 10 epochs
and validations that never improve on the best value 5, the loop runs exactly
`min 10 3 = 3` further epochs. -/
theorem epoch_loop_stops_after_patience_exceeded_witness :
    (∀ e : Nat, (fun _ : Nat => EpochOutcome.metric (PyFloat.fin 5)) e
        = EpochOutcome.metric (PyFloat.fin 5)) ∧ (0 : Nat) ≤ 2 ∧
    (epoch_loop false 2 0 (fun _ => EpochOutcome.metric (PyFloat.fin 5)) 10 0
        (PyFloat.fin 5) 0).epochsRun.length = min 10 3 :=
  ⟨fun _ => rfl, by decide,
    epoch_loop_stops_after_patience_exceeded false 2 0 _ _ (fun _ => rfl)
      10 0 0 (by decide)⟩

/-- Helper: within the epoch loop, the process group is destroyed exactly
when no error propagates out of the loop. -/
theorem epoch_loop_destroyed_iff_no_error (higher_is_better : Bool)
    (patience rank : Nat) (outcomes : Nat → EpochOutcome) :
    ∀ fuel epoch best notImp,
      ((epoch_loop higher_is_better patience rank outcomes fuel epoch
          best notImp).destroyed = true
        ↔ (epoch_loop higher_is_better patience rank outcomes fuel epoch
            best notImp).error = none) := by
  intro fuel
  induction fuel with
  | zero => intro epoch best notImp; simp [epoch_loop]
  | succ n ih =>
    intro epoch best notImp
    cases houtc : outcomes epoch with
    | trainError msg => simp [epoch_loop, houtc]
    | metric m =>
      by_cases himp : target_metric_improved higher_is_better m best = true
      · simp [epoch_loop, houtc, himp, ih]
      · by_cases hcnt : notImp + 1 > patience
        · simp [epoch_loop, houtc, himp, hcnt]
        · simp [epoch_loop, houtc, himp, hcnt, ih]

/-- Claim C7 counterexample: a run whose first training pass raises re-raises
the exception past the `destroy_process_group` call, which is not in a
`finally` block, so the process group is not destroyed on the error path —
refuting that teardown is unconditional. -/
theorem destroy_on_error_path_counterexample :
    (parallel_training_process false none 10 5 false 0 (PyFloat.fin 0)
        (fun _ => .trainError "boom")).destroyed = false ∧
    (parallel_training_process false none 10 5 false 0 (PyFloat.fin 0)
        (fun _ => .trainError "boom")).error = some "boom" := by
  constructor <;> decide

/-- Claim C7 (amended): the worker destroys the process group exactly on the
paths where no exception propagates — normal completion of the epoch budget
and the early-stop break — and does not destroy it when an error (a training
exception or the failed start assertion) propagates, since the destroy call
is not in a `finally` block. -/
theorem destroy_process_group_iff_no_error (higher_is_better : Bool)
    (target_metric_name : Option String) (max_num_epochs patience rank : Nat)
    (validate_on_start : Bool) (start_metric : PyFloat)
    (outcomes : Nat → EpochOutcome) :
    (parallel_training_process higher_is_better target_metric_name
        max_num_epochs patience validate_on_start rank start_metric
        outcomes).destroyed = true
      ↔ (parallel_training_process higher_is_better target_metric_name
          max_num_epochs patience validate_on_start rank start_metric
          outcomes).error = none := by
  cases validate_on_start with
  | false =>
    simpa [parallel_training_process] using
      epoch_loop_destroyed_iff_no_error higher_is_better patience rank
        outcomes max_num_epochs 0
        (initial_best_target_metric higher_is_better target_metric_name) 0
  | true =>
    by_cases himp : target_metric_improved higher_is_better start_metric
        (initial_best_target_metric higher_is_better target_metric_name) = true
    · simpa [parallel_training_process, himp] using
        epoch_loop_destroyed_iff_no_error higher_is_better patience rank
          outcomes max_num_epochs 0 start_metric 0
    · simp [parallel_training_process, himp]

/-- Helper: within the epoch loop, the checkpoints this rank saves are
exactly the improved epochs when the rank is 0, and none otherwise. -/
theorem epoch_loop_saves_eq (higher_is_better : Bool) (patience rank : Nat)
    (outcomes : Nat → EpochOutcome) :
    ∀ fuel epoch best notImp,
      (epoch_loop higher_is_better patience rank outcomes fuel epoch
          best notImp).saves
        = if rank = 0
          then (epoch_loop higher_is_better patience rank outcomes fuel epoch
              best notImp).improvedEpochs
          else [] := by
  intro fuel
  induction fuel with
  | zero => intro epoch best notImp; simp [epoch_loop]
  | succ n ih =>
    intro epoch best notImp
    cases houtc : outcomes epoch with
    | trainError msg => simp [epoch_loop, houtc]
    | metric m =>
      by_cases himp : target_metric_improved higher_is_better m best = true
      · simp [epoch_loop, houtc, himp, ih]
        by_cases hr : rank = 0 <;> simp [hr]
      · by_cases hcnt : notImp + 1 > patience
        · simp [epoch_loop, houtc, himp, hcnt]
        · simp [epoch_loop, houtc, himp, hcnt, ih]

/-- Claim C8 (confirmed): in every run, the epochs at which a rank invokes
the checkpoint save are exactly the epochs the target metric improved when
the rank is the coordinator (rank 0), and no other rank ever saves; in
particular every save happens at an improved epoch and only on rank 0. -/
theorem checkpoint_saves_only_rank0_on_improvement (higher_is_better : Bool)
    (target_metric_name : Option String) (max_num_epochs patience rank : Nat)
    (validate_on_start : Bool) (start_metric : PyFloat)
    (outcomes : Nat → EpochOutcome) :
    (parallel_training_process higher_is_better target_metric_name
        max_num_epochs patience validate_on_start rank start_metric
        outcomes).saves
      = if rank = 0
        then (parallel_training_process higher_is_better target_metric_name
            max_num_epochs patience validate_on_start rank start_metric
            outcomes).improvedEpochs
        else [] := by
  cases validate_on_start with
  | false =>
    simpa [parallel_training_process] using
      epoch_loop_saves_eq higher_is_better patience rank outcomes
        max_num_epochs 0
        (initial_best_target_metric higher_is_better target_metric_name) 0
  | true =>
    by_cases himp : target_metric_improved higher_is_better start_metric
        (initial_best_target_metric higher_is_better target_metric_name) = true
    · simpa [parallel_training_process, himp] using
        epoch_loop_saves_eq higher_is_better patience rank outcomes
          max_num_epochs 0 start_metric 0
    · simp [parallel_training_process, himp]

/-- Claim C9 (confirmed): `distributed_train` always passes the hardcoded
constant 2 as `nprocs` to the process spawn, for every configuration of its
arguments — the world size is not derived from any parameter. -/
theorem distributed_train_spawns_two_processes :
    ∀ a b : DistributedTrainArgs,
      distributed_train_nprocs a = 2 ∧
      distributed_train_nprocs a = distributed_train_nprocs b :=
  fun _ _ => ⟨rfl, rfl⟩

/-- Claim C10 (confirmed): for every input, the inherited `train` entry point
raises the exception directing the caller to `distributed_train`, and never
returns successfully — no training work is performed. -/
theorem train_always_raises :
    ∀ args : TrainArgs,
      train args = Except.error "Use `distributed_train` instead." ∧
      ∀ u : Unit, train args ≠ Except.ok u := by
  intro args
  exact ⟨rfl, fun u h => by simp [train] at h⟩

end Ptgnn
